import Mathlib

/-!
Verification of the "forward" pheWAS engine (genotype/phenotype sources,
task scope resolution, the single-core work queue) against its
natural-language specification.

Conventions of the shallow embedding:
- Numeric values are rationals; a missing value (numpy NaN) is "none" in
  "Option Rat" so that, as in numpy, "NaN == 0" and "NaN == 1" are false.
- Fallible Python methods become functions into "Except e a"; the distinct
  Python exception classes and raise sites become distinct constructors of
  the error type.
- Each embedded definition mirrors one function or method of the source,
  named after it.
-/

namespace Forward

/-- A phenotype/genotype cell value; "none" stands for numpy NaN. -/
abbrev PhenValue := Option ℚ

/-- Number of missing entries of a vector: np.sum(np.isnan(v)). -/
def nMissing (g : List PhenValue) : ℕ := (g.filter Option.isNone).length

/-- Number of non-missing entries: np.sum(~np.isnan(v)). -/
def nNonMissing (g : List PhenValue) : ℕ := (g.filterMap id).length

/-- Sum ignoring missing entries: np.nansum(v). -/
def nanSum (g : List PhenValue) : ℚ := (g.filterMap id).sum

namespace Geno

/-- Errors raised by the genotype databases (forward/genotype.py).
The frozen-database condition is its own exception class
(FrozenDatabaseError), distinct from the ValueError raise sites used for
lookup and configuration failures. -/
inductive GenoError
  | frozenDatabase
  | valueError (msg : String)
  deriving Repr, DecidableEq

/-- ORM Variant row (forward/genotype.py, class Variant). -/
structure Variant where
  name : String
  chrom : String
  pos : ℤ
  mac : ℚ
  minor : String
  major : String
  n_missing : ℕ
  n_non_missing : ℕ
  deriving Repr, DecidableEq

/-- Hybrid property: maf = mac / (2 * n_non_missing). -/
def Variant.maf (v : Variant) : ℚ := v.mac / (2 * (v.n_non_missing : ℚ))

/-- Hybrid property:
completion_rate = n_non_missing / (n_non_missing + n_missing). -/
def Variant.completion_rate (v : Variant) : ℚ :=
  (v.n_non_missing : ℚ) / ((v.n_non_missing : ℚ) + (v.n_missing : ℚ))

/-- One record yielded by iterating the gepyto Impute2File in dosage mode:
the dosage vector together with the info fields used by the source.
The maf field is computed by gepyto (outside this repository). -/
structure Impute2Record where
  name : String
  chrom : String
  pos : ℤ
  maf : ℚ
  minor_allele_count : ℚ
  minor : String
  major : String
  dosage : List PhenValue
  deriving Repr, DecidableEq

/-- Mutable state of MemoryImpute2Geno: the configured filters and the
frozen flag (forward/genotype.py, MemoryImpute2Geno.__init__). -/
structure MemoryImpute2Geno where
  samples : List String
  thresh_completion : ℚ := 0
  thresh_maf : ℚ := 0
  names : List String := []
  samples_mask : Option (List Bool) := none
  frozen : Bool := false
  deriving Repr, DecidableEq

/-- MemoryImpute2Geno.filter_completion: rejected when frozen, otherwise
records the completion threshold. -/
def MemoryImpute2Geno.filter_completion (db : MemoryImpute2Geno) (rate : ℚ) :
    Except GenoError MemoryImpute2Geno :=
  if db.frozen then .error .frozenDatabase
  else .ok { db with thresh_completion := rate }

/-- MemoryImpute2Geno.filter_maf: rejected when frozen, otherwise records
the MAF threshold. -/
def MemoryImpute2Geno.filter_maf (db : MemoryImpute2Geno) (maf : ℚ) :
    Except GenoError MemoryImpute2Geno :=
  if db.frozen then .error .frozenDatabase
  else .ok { db with thresh_maf := maf }

/-- MemoryImpute2Geno.filter_name (list form): rejected when frozen,
otherwise records the retained names. -/
def MemoryImpute2Geno.filter_name (db : MemoryImpute2Geno)
    (names_list : List String) : Except GenoError MemoryImpute2Geno :=
  if db.frozen then .error .frozenDatabase
  else .ok { db with names := names_list }

/-- The per-record filtering decision of MemoryImpute2Geno.experiment_init:
name membership, then completion (only when the threshold is nonzero,
computed from the dosage vector), then the gepyto-provided maf against
the configured threshold. -/
def keepMemory (db : MemoryImpute2Geno) (r : Impute2Record) : Bool :=
  if !db.names.isEmpty && !db.names.contains r.name then false
  else if db.thresh_completion ≠ 0 ∧
      ((r.dosage.length - nMissing r.dosage : ℕ) : ℚ) / (r.dosage.length : ℚ)
        < db.thresh_completion then false
  else if r.maf < db.thresh_maf then false
  else true

/-- The Variant row inserted for a surviving record: mac is the
minor_allele_count from the file info, the counts come from the dosage
vector. -/
def mkMemoryVariant (r : Impute2Record) : Variant :=
  { name := r.name, chrom := r.chrom, pos := r.pos,
    mac := r.minor_allele_count, minor := r.minor, major := r.major,
    n_missing := nMissing r.dosage,
    n_non_missing := r.dosage.length - nMissing r.dosage }

/-- Optional column-wise sample exclusion applied to a surviving dosage
vector. -/
def applyMask (mask : Option (List Bool)) (dosage : List PhenValue) :
    List PhenValue :=
  match mask with
  | none => dosage
  | some m => (dosage.zip m).filterMap (fun p => if p.2 then some p.1 else none)

/-- MemoryImpute2Geno.experiment_init: stream the records, apply the
configured filters in order, build the in-memory dosage matrix and the
Variant catalog, and freeze the database. Batched insertion inserts the
same surviving rows, so the catalog is modelled as one list. -/
def MemoryImpute2Geno.experiment_init (db : MemoryImpute2Geno)
    (records : List Impute2Record) :
    MemoryImpute2Geno × List Variant × List (String × List PhenValue) :=
  let kept := records.filter (keepMemory db)
  ({ db with frozen := true },
   kept.map mkMemoryVariant,
   kept.map (fun r => (r.name, applyMask db.samples_mask r.dosage)))

/-- One marker yielded by iterating the pyplink file: the variant name,
its bim info and the genotype vector. -/
structure PlinkRecord where
  name : String
  chrom : String
  pos : ℤ
  a1 : String
  a2 : String
  geno : List PhenValue
  deriving Repr, DecidableEq

/-- Mutable state of PlinkGenotypeDatabase
(forward/genotype.py, PlinkGenotypeDatabase.__init__). The min_rate field
models the attribute created dynamically by filter_completion; the
source's __init__ only initializes min_maf, min_completion and
good_names. -/
structure PlinkGenotypeDatabase where
  iid : List String
  min_maf : ℚ := 0
  min_completion : ℚ := 0
  min_rate : Option ℚ := none
  good_names : List String := []
  frozen : Bool := false
  deriving Repr, DecidableEq

/-- PlinkGenotypeDatabase.filter_name (list form). -/
def PlinkGenotypeDatabase.filter_name (db : PlinkGenotypeDatabase)
    (variant_list : List String) : Except GenoError PlinkGenotypeDatabase :=
  if db.frozen then .error .frozenDatabase
  else .ok { db with good_names := variant_list }

/-- PlinkGenotypeDatabase.filter_maf. -/
def PlinkGenotypeDatabase.filter_maf (db : PlinkGenotypeDatabase) (maf : ℚ) :
    Except GenoError PlinkGenotypeDatabase :=
  if db.frozen then .error .frozenDatabase
  else .ok { db with min_maf := maf }

/-- PlinkGenotypeDatabase.filter_completion. Faithful to the source, it
assigns self.min_rate (a fresh attribute), not the min_completion field
that experiment_init reads. -/
def PlinkGenotypeDatabase.filter_completion (db : PlinkGenotypeDatabase)
    (rate : ℚ) : Except GenoError PlinkGenotypeDatabase :=
  if db.frozen then .error .frozenDatabase
  else .ok { db with min_rate := some rate }

/-- The per-marker filtering decision of
PlinkGenotypeDatabase.experiment_init: name membership, then
maf = nansum(geno) / (2 * len(geno)) against min_maf, then
completion = n_non_missing / len(geno) against min_completion. -/
def keepPlink (db : PlinkGenotypeDatabase) (r : PlinkRecord) : Bool :=
  if !db.good_names.isEmpty && !db.good_names.contains r.name then false
  else if nanSum r.geno / (2 * (r.geno.length : ℚ)) < db.min_maf then false
  else if ((nNonMissing r.geno : ℕ) : ℚ) / (r.geno.length : ℚ)
      < db.min_completion then false
  else true

/-- The Variant row inserted for a surviving marker. -/
def mkPlinkVariant (r : PlinkRecord) : Variant :=
  { name := r.name, chrom := r.chrom, pos := r.pos,
    mac := nanSum r.geno, minor := r.a1, major := r.a2,
    n_missing := nMissing r.geno, n_non_missing := nNonMissing r.geno }

/-- PlinkGenotypeDatabase.experiment_init: filter the markers, fill the
Variant catalog and freeze the database. -/
def PlinkGenotypeDatabase.experiment_init (db : PlinkGenotypeDatabase)
    (records : List PlinkRecord) : PlinkGenotypeDatabase × List Variant :=
  ({ db with frozen := true },
   (records.filter (keepPlink db)).map mkPlinkVariant)

/-- Passing the keepMemory filter implies the record's maf was not below
the configured threshold. -/
theorem keepMemory_maf {db : MemoryImpute2Geno} {r : Impute2Record}
    (h : keepMemory db r = true) : ¬ (r.maf < db.thresh_maf) := by
  unfold keepMemory at h
  split_ifs at h <;> simp_all

/-- Passing the keepPlink filter implies the vector-level maf
(nansum / (2 * n_samples)) was not below the configured threshold. -/
theorem keepPlink_maf {db : PlinkGenotypeDatabase} {r : PlinkRecord}
    (h : keepPlink db r = true) :
    ¬ (nanSum r.geno / (2 * (r.geno.length : ℚ)) < db.min_maf) := by
  unfold keepPlink at h
  split_ifs at h <;> simp_all

/-- A positive nansum forces at least one non-missing entry. -/
theorem nNonMissing_pos_of_nanSum_pos {g : List PhenValue}
    (h : 0 < nanSum g) : 0 < nNonMissing g := by
  by_contra hzero
  have hlen : (g.filterMap id).length = 0 := by
    unfold nNonMissing at hzero; omega
  have : g.filterMap id = [] := List.eq_nil_of_length_eq_zero hlen
  rw [nanSum, this] at h
  simp at h

/-- There are at most as many non-missing entries as entries. -/
theorem nNonMissing_le_length (g : List PhenValue) :
    nNonMissing g ≤ g.length := by
  unfold nNonMissing
  exact List.length_filterMap_le id g

/-- Core inequality behind the amended MAF claim: when all genotype values
are nonnegative, the maf computed over all samples bounds the maf computed
over the non-missing samples from below. -/
theorem derived_maf_ge {g : List PhenValue} {m : ℚ}
    (hpos : ∀ q ∈ g.filterMap id, 0 ≤ q)
    (h : m ≤ nanSum g / (2 * (g.length : ℚ))) :
    m ≤ nanSum g / (2 * (nNonMissing g : ℚ)) := by
  have hsum : 0 ≤ nanSum g := List.sum_nonneg hpos
  rcases le_or_lt m 0 with hm | hm
  · exact hm.trans (div_nonneg hsum (by positivity))
  · have hlenpos : 0 < (g.length : ℚ) := by
      rcases Nat.eq_zero_or_pos g.length with h0 | h0
      · exfalso
        have hg : g = [] := List.eq_nil_of_length_eq_zero h0
        subst hg
        simp [nanSum] at h
        exact absurd hm (not_lt.mpr h)
      · exact_mod_cast h0
    have hsumpos : 0 < nanSum g := by
      by_contra hns
      push_neg at hns
      have : nanSum g / (2 * (g.length : ℚ)) ≤ 0 :=
        div_nonpos_of_nonpos_of_nonneg hns (by positivity)
      exact absurd (h.trans this) (not_le.mpr hm)
    have hnn : 0 < (nNonMissing g : ℚ) := by
      exact_mod_cast nNonMissing_pos_of_nanSum_pos hsumpos
    have hle : (2 : ℚ) * (nNonMissing g : ℚ) ≤ 2 * (g.length : ℚ) := by
      have := nNonMissing_le_length g
      have : ((nNonMissing g : ℕ) : ℚ) ≤ (g.length : ℚ) := by exact_mod_cast this
      linarith
    calc m ≤ nanSum g / (2 * (g.length : ℚ)) := h
    _ ≤ nanSum g / (2 * (nNonMissing g : ℚ)) :=
        div_le_div_of_nonneg_left hsum (by linarith) hle

end Geno

open Geno in
/-- C1: once experiment_init has completed, every subsequent call to
filter_name, filter_maf or filter_completion on either genotype source
returns the frozen-database error kind (a constructor distinct from the
value-error kind used for lookup and configuration failures), rather than
succeeding silently. -/
theorem frozen_database_rejects_filters
    (db : MemoryImpute2Geno) (records : List Impute2Record)
    (pdb : PlinkGenotypeDatabase) (precords : List PlinkRecord)
    (l pl : List String) (m r pm pr : ℚ) :
    ((db.experiment_init records).1.filter_name l
      = .error .frozenDatabase) ∧
    ((db.experiment_init records).1.filter_maf m
      = .error .frozenDatabase) ∧
    ((db.experiment_init records).1.filter_completion r
      = .error .frozenDatabase) ∧
    ((pdb.experiment_init precords).1.filter_name pl
      = .error .frozenDatabase) ∧
    ((pdb.experiment_init precords).1.filter_maf pm
      = .error .frozenDatabase) ∧
    ((pdb.experiment_init precords).1.filter_completion pr
      = .error .frozenDatabase) := by
  refine ⟨?_, ?_, ?_, ?_, ?_, ?_⟩ <;>
    simp [MemoryImpute2Geno.experiment_init, PlinkGenotypeDatabase.experiment_init,
      MemoryImpute2Geno.filter_name, MemoryImpute2Geno.filter_maf,
      MemoryImpute2Geno.filter_completion, PlinkGenotypeDatabase.filter_name,
      PlinkGenotypeDatabase.filter_maf, PlinkGenotypeDatabase.filter_completion]

open Geno in
/-- C3 (amended): every variant retained after filter_maf(m) and
experiment_init has derived maf (mac / (2 * n_non_missing)) at least m:
for the in-memory IMPUTE2 source under the gepyto relation
maf = minor_allele_count / (2 * n_non_missing), and for the PLINK source
whenever the genotype dosages are nonnegative. For the IMPUTE2 source the
dropped direction also holds (a record whose maf is below the threshold
yields a variant with derived maf below it); for the PLINK source the
dropped direction fails because its filter divides by the total sample
count, see the counterexample. -/
theorem maf_filter_spec
    (db : MemoryImpute2Geno) (records : List Impute2Record)
    (pdb : PlinkGenotypeDatabase) (precords : List PlinkRecord)
    (hgep : ∀ rec ∈ records,
      rec.maf = rec.minor_allele_count
        / (2 * ((rec.dosage.length - nMissing rec.dosage : ℕ) : ℚ)))
    (hpos : ∀ rec ∈ precords, ∀ q ∈ rec.geno.filterMap id, 0 ≤ q) :
    (∀ v ∈ (db.experiment_init records).2.1, db.thresh_maf ≤ v.maf) ∧
    (∀ rec ∈ records, rec.maf < db.thresh_maf →
      (mkMemoryVariant rec).maf < db.thresh_maf) ∧
    (∀ v ∈ (pdb.experiment_init precords).2, pdb.min_maf ≤ v.maf) := by
  refine ⟨?_, ?_, ?_⟩
  · intro v hv
    simp only [MemoryImpute2Geno.experiment_init, List.mem_map,
      List.mem_filter] at hv
    obtain ⟨rec, ⟨hrec, hkeep⟩, rfl⟩ := hv
    have hmaf := keepMemory_maf hkeep
    have heq : (mkMemoryVariant rec).maf = rec.maf := by
      rw [hgep rec hrec]; rfl
    rw [heq]
    exact not_lt.mp hmaf
  · intro rec hrec hlt
    have heq : (mkMemoryVariant rec).maf = rec.maf := by
      rw [hgep rec hrec]; rfl
    rw [heq]; exact hlt
  · intro v hv
    simp only [PlinkGenotypeDatabase.experiment_init, List.mem_map,
      List.mem_filter] at hv
    obtain ⟨rec, ⟨hrec, hkeep⟩, rfl⟩ := hv
    have hmaf := not_lt.mp (keepPlink_maf hkeep)
    have : pdb.min_maf ≤ nanSum rec.geno / (2 * (nNonMissing rec.geno : ℚ)) :=
      derived_maf_ge (hpos rec hrec) hmaf
    exact this

/-- Concrete input for the C3 counterexample: a PLINK source configured
with filter_maf(3/10), one marker with two samples, one of them missing. -/
def c3pdb : Geno.PlinkGenotypeDatabase :=
  { iid := ["s1", "s2"], min_maf := 3/10 }

/-- The marker of the C3 counterexample. -/
def c3rec : Geno.PlinkRecord :=
  { name := "v1", chrom := "1", pos := 1, a1 := "A", a2 := "G",
    geno := [some 1, none] }

/-- C3 counterexample: the PLINK source drops this marker under
filter_maf(3/10) (the catalog is empty after experiment_init), yet the
dropped variant's derived maf, mac / (2 * n_non_missing) = 1/2, is not
below 3/10 — refuting the claim that every variant dropped by the MAF
filter has derived maf below the threshold. -/
theorem maf_filter_counterexample :
    (c3pdb.experiment_init [c3rec]).2 = [] ∧
    ¬ ((Geno.mkPlinkVariant c3rec).maf < c3pdb.min_maf) ∧
    (Geno.mkPlinkVariant c3rec).maf = 1/2 := by
  refine ⟨?_, ?_, ?_⟩
  · norm_num [c3pdb, c3rec, Geno.PlinkGenotypeDatabase.experiment_init,
      Geno.keepPlink, nanSum, nNonMissing, nMissing, List.filterMap_cons]
  · norm_num [c3pdb, c3rec, Geno.mkPlinkVariant, Geno.Variant.maf,
      nanSum, nNonMissing, nMissing, List.filterMap_cons]
  · norm_num [c3rec, Geno.mkPlinkVariant, Geno.Variant.maf,
      nanSum, nNonMissing, nMissing, List.filterMap_cons]

/-- Initial PLINK state for the C4 bug demonstration. -/
def c4pdb : Geno.PlinkGenotypeDatabase := { iid := ["s1", "s2"] }

/-- The marker of the C4 bug demonstration: completion rate 1/2. -/
def c4rec : Geno.PlinkRecord :=
  { name := "v1", chrom := "1", pos := 1, a1 := "A", a2 := "G",
    geno := [some 1, none] }

/-- C4 (code bug): filter_completion(3/4) on the PLINK source stores the
rate into the min_rate attribute while experiment_init reads
min_completion (left at 0), so the marker with completion rate 1/2 < 3/4
is still inserted into the catalog, contradicting the claim (and the
repository's own abstract filter_completion test). -/
theorem plink_filter_completion_ineffective :
    c4pdb.filter_completion (3/4)
      = .ok { c4pdb with min_rate := some (3/4) } ∧
    (({ c4pdb with min_rate := some (3/4) }
        : Geno.PlinkGenotypeDatabase).experiment_init [c4rec]).2
      = [Geno.mkPlinkVariant c4rec] ∧
    (Geno.mkPlinkVariant c4rec).completion_rate < 3/4 := by
  refine ⟨?_, ?_, ?_⟩
  · simp [c4pdb, Geno.PlinkGenotypeDatabase.filter_completion]
  · norm_num [c4pdb, c4rec, Geno.PlinkGenotypeDatabase.experiment_init,
      Geno.keepPlink, nanSum, nNonMissing, nMissing, List.filterMap_cons]
  · norm_num [c4rec, Geno.mkPlinkVariant, Geno.Variant.completion_rate,
      nanSum, nNonMissing, nMissing, List.filterMap_cons]

/-- Concrete IMPUTE2 state for the C3 witness. -/
def w3db : Geno.MemoryImpute2Geno := { samples := ["s1", "s2"] }

/-- Concrete IMPUTE2 record for the C3 witness. -/
def w3rec : Geno.Impute2Record :=
  { name := "r1", chrom := "1", pos := 5, maf := 0, minor_allele_count := 0,
    minor := "A", major := "G", dosage := [some 1, some 0] }

/-- Concrete PLINK state for the C3 witness. -/
def w3pdb : Geno.PlinkGenotypeDatabase := { iid := ["s1"] }

/-- Concrete PLINK record for the C3 witness. -/
def w3prec : Geno.PlinkRecord :=
  { name := "v1", chrom := "1", pos := 1, a1 := "A", a2 := "G",
    geno := [some 0] }

/-- Witness instantiating maf_filter_spec at concrete inputs. -/
theorem maf_filter_spec_witness :
    (∀ v ∈ (w3db.experiment_init [w3rec]).2.1, w3db.thresh_maf ≤ v.maf) ∧
    (∀ rec ∈ [w3rec], rec.maf < w3db.thresh_maf →
      (Geno.mkMemoryVariant rec).maf < w3db.thresh_maf) ∧
    (∀ v ∈ (w3pdb.experiment_init [w3prec]).2, w3pdb.min_maf ≤ v.maf) :=
  maf_filter_spec w3db [w3rec] w3pdb [w3prec]
    (by
      intro rec h
      simp only [List.mem_singleton] at h
      subst h
      simp [w3rec, nMissing])
    (by
      intro rec h q hq
      simp only [List.mem_singleton] at h
      subst h
      simp [w3prec, List.filterMap_cons] at hq
      simp [hq])

namespace Phen

/-- Errors raised by the phenotype databases (forward/phenotype/db.py),
one constructor per raise site. The Python classes are ValueError for all
but stateError, which is the bare Exception raised on re-triggering the
exclusion computation, and attributeError, the AttributeError the
interpreter raises when get_phenotype_vector calls the undefined
is_variable method. -/
inductive PhenError
  | missingSamples (msg : String)
  | extraSamples (msg : String)
  | lookupError (msg : String)
  | invalidTransformation (msg : String)
  | stateError (msg : String)
  | attributeError (msg : String)
  deriving Repr, DecidableEq

/-- A phenotype Variable (forward/phenotype/variables.py, class Variable;
the prime avoids the Lean keyword): its name, covariate flag, type tag
("discrete" or "continuous") and, for continuous variables, an optional
transformation name. -/
structure Variable' where
  name : String
  variable_type : String
  is_covariate : Bool
  transformation : Option String := none
  deriving Repr, DecidableEq

/-- The pandas DataFrame held by PandasPhenotypeDatabase: a sample index
and named columns of values aligned with the index. -/
structure DataFrame where
  index : List String
  columns : List (String × List PhenValue)
  deriving Repr, DecidableEq

/-- AbstractPhenotypeDatabase.validate_sample_sequences: reject a
reordering with missing source samples unless allow_subset, and always
reject extra unknown samples (comparison is set-based). -/
def validate_sample_sequences (old_seq new_seq : List String)
    (allow_subset : Bool) : Except PhenError Unit :=
  let missing := old_seq.filter (fun s => ¬ new_seq.contains s)
  let extra := new_seq.filter (fun s => ¬ old_seq.contains s)
  if ¬ allow_subset ∧ ¬ missing.isEmpty then
    .error (.missingSamples
      "Can\x27t set the sequence because some entries are missing resulting in ambiguous order.")
  else if ¬ extra.isEmpty then
    .error (.extraSamples
      ("Some of the given samples are not in the phenotype database ("
        ++ String.intercalate ", " extra ++ ")."))
  else .ok ()

/-- data.loc with a row-label sequence: reindex every column by the
requested sample sequence (labels are assumed validated to be present). -/
def DataFrame.reindex (df : DataFrame) (seq : List String) : DataFrame :=
  { index := seq,
    columns := df.columns.map (fun c =>
      (c.1, seq.map (fun s =>
        match df.index.indexOf? s with
        | some p => c.2.getD p none
        | none => none))) }

/-- One exclusion tuple added to the _exclusion_mappings set:
(phen1, phen2, correlation, n_excluded). -/
structure ExclusionRecord where
  phen1 : String
  phen2 : String
  correlation : ℚ
  n : ℕ
  deriving Repr, DecidableEq

/-- Adding a tuple to the _exclusion_mappings set: a no-op when the same
tuple is already present. -/
def insertMapping (m : ExclusionRecord) (ms : List ExclusionRecord) :
    List ExclusionRecord :=
  if m ∈ ms then ms else ms ++ [m]

/-- Mutable state of PandasPhenotypeDatabase: the data frame, the
order-set flag, the experiment variables, and the three attributes
created dynamically by exclude_correlated (none models an attribute that
does not exist yet). -/
structure PandasPhenotypeDatabase where
  data : DataFrame
  order_is_set : Bool := false
  variables' : Option (List Variable') := none
  exclusion_threshold : Option ℚ := none
  exclusion_mappings : List ExclusionRecord := []
  exclusions_were_initialized : Option Bool := none
  deriving Repr, DecidableEq

/-- PandasPhenotypeDatabase.get_sample_order (the warning aside). -/
def PandasPhenotypeDatabase.get_sample_order
    (db : PandasPhenotypeDatabase) : List String := db.data.index

/-- PandasPhenotypeDatabase.set_sample_order: validate the new sequence
against the current index, then reindex the rows and mark the order as
set. -/
def PandasPhenotypeDatabase.set_sample_order (db : PandasPhenotypeDatabase)
    (sequence : List String) (allow_subset : Bool) :
    Except PhenError PandasPhenotypeDatabase :=
  match validate_sample_sequences db.get_sample_order sequence allow_subset with
  | .error e => .error e
  | .ok _ =>
      .ok { db with data := db.data.reindex sequence, order_is_set := true }

/-- The fixed transformation registry of apply_transformation
(forward/phenotype/db.py); the numeric functions themselves (np.log and
the inverse normal transform) live outside the embedded fragment and are
passed in as the fns argument below. -/
def TRANSFORMATIONS : List String := ["log", "inverse-normal-transform"]

/-- apply_transformation: validate the transformation name against the
registry, then apply the corresponding numeric function. -/
def apply_transformation (fns : String → List PhenValue → List PhenValue)
    (transformation : String) (vector : List PhenValue) :
    Except PhenError (List PhenValue) :=
  if TRANSFORMATIONS.contains transformation then
    .ok (fns transformation vector)
  else
    .error (.invalidTransformation
      ("Invalid transformation \x27" ++ transformation ++ "\x27."))

/-- The message of the AttributeError raised when the is_variable method
is called. -/
def isVariableAttrMsg : String :=
  "\x27Variable\x27 object has no attribute \x27is_variable\x27"

/-- The attribute resolution of variable.is_variable(): class Variable
(forward/phenotype/variables.py) defines no method of that name, and the
declarative base adds only to_json, so the interpreter raises
AttributeError instead of returning a Bool. -/
def Variable'.is_variable_call (v : Variable') : Except PhenError Bool :=
  .error (.attributeError isVariableAttrMsg)

/-- Core of PandasPhenotypeDatabase.get_phenotype_vector on a DataFrame,
in source order: the is_variable guard (whose attribute resolution fails
before the guard can test anything), then the name-lookup check, then the
column values, transformed when the variable is continuous with a
registered transformation. -/
def get_phenotype_vector_df (fns : String → List PhenValue → List PhenValue)
    (df : DataFrame) (var : Variable') :
    Except PhenError (List PhenValue) :=
  match var.is_variable_call with
  | .error e => .error e
  | .ok b =>
    if ¬ b then
      .error (.lookupError
        ("\x27" ++ var.name ++ "\x27 is not a Variable instance."))
    else
      let name := var.name
      if ¬ (df.columns.map Prod.fst).contains name then
        .error (.lookupError ("\x27" ++ name ++ "\x27 is not in the database."))
      else
        let vect := (df.columns.lookup name).getD []
        match var.transformation with
        | some t =>
            if var.variable_type = "continuous" then
              apply_transformation fns t vect
            else .ok vect
        | none => .ok vect

/-- PandasPhenotypeDatabase.get_phenotype_vector. -/
def PandasPhenotypeDatabase.get_phenotype_vector
    (fns : String → List PhenValue → List PhenValue)
    (db : PandasPhenotypeDatabase) (var : Variable') :
    Except PhenError (List PhenValue) :=
  get_phenotype_vector_df fns db.data var

/-- PandasPhenotypeDatabase.exclude_correlated: remember the threshold,
start an empty exclusion set, and mark the exclusions as not yet
initialized. -/
def PandasPhenotypeDatabase.exclude_correlated (db : PandasPhenotypeDatabase)
    (threshold : ℚ) : PandasPhenotypeDatabase :=
  { db with exclusion_threshold := some threshold,
            exclusion_mappings := [],
            exclusions_were_initialized := some false }

/-- The mask (y == 0) & (related_phenotype_y == 1): a NaN (none) entry
compares unequal to both 0 and 1, as in numpy. -/
def exclusionMask (y rel : List PhenValue) : List Bool :=
  List.zipWith (fun a b => a == some (0 : ℚ) && b == some (1 : ℚ)) y rel

/-- One column after self.data.loc[mask, name] = np.nan. -/
def nullByMask (vals : List PhenValue) (mask : List Bool) : List PhenValue :=
  List.zipWith (fun v m => if m then none else v) vals mask

/-- self.data.loc[mask, name] = np.nan: null the masked rows of the named
column, leaving every other column unchanged. -/
def DataFrame.setColumnNaN (df : DataFrame) (name : String)
    (mask : List Bool) : DataFrame :=
  { df with columns := df.columns.map (fun c =>
      if c.1 = name then (c.1, nullByMask c.2 mask) else c) }

/-- The body of the inner loop of set_experiment_variables for one
candidate index j: when the correlation passes the threshold and
variables[j] is another discrete non-covariate, fetch its (current)
vector, null the masked rows of the outer variable's column, and record
the exclusion tuple with the mask count. The snapshot y of the outer
variable and its index i are fixed for the whole inner loop. -/
def excludeStep (fns : String → List PhenValue → List PhenValue) (t : ℚ)
    (mat : ℕ → ℕ → ℚ) (vars : List Variable') (names : List String)
    (var : Variable') (y : List PhenValue) (i : ℕ)
    (acc : DataFrame × List ExclusionRecord) (j : ℕ) :
    Except PhenError (DataFrame × List ExclusionRecord) :=
  if |mat i j| ≥ t then
    if j ≠ i then
      match vars[j]? with
      | none => .ok acc
      | some vj =>
        if vj.variable_type = "discrete" ∧ vj.is_covariate = false then
          match get_phenotype_vector_df fns acc.1 vj with
          | .error e => .error e
          | .ok rel =>
            let mask := exclusionMask y rel
            .ok (acc.1.setColumnNaN var.name mask,
              insertMapping
                ⟨var.name, names.getD j "", mat i j, mask.count true⟩
                acc.2)
        else .ok acc
    else .ok acc
  else .ok acc

/-- The body of the outer loop of set_experiment_variables for one
variable: quantitative and covariate variables are skipped; otherwise its
vector is fetched once (the snapshot y) and every index of the
correlation row is examined. -/
def processVar (fns : String → List PhenValue → List PhenValue) (t : ℚ)
    (mat : ℕ → ℕ → ℚ) (vars : List Variable') (names : List String)
    (acc : DataFrame × List ExclusionRecord) (var : Variable') :
    Except PhenError (DataFrame × List ExclusionRecord) :=
  if var.variable_type ≠ "discrete" then .ok acc
  else if var.is_covariate = true then .ok acc
  else
    match get_phenotype_vector_df fns acc.1 var with
    | .error e => .error e
    | .ok y =>
        (List.range vars.length).foldlM
          (excludeStep fns t mat vars names var y (names.indexOf var.name))
          acc

/-- PandasPhenotypeDatabase.set_experiment_variables: store the variable
list; when exclusions were never requested return at once; when the
initialized flag is set raise; otherwise compute the exclusions from the
correlation matrix (mat stands for the get_correlation_matrix result,
whose numerics live outside the embedded fragment). Faithful to the
source, the initialized flag is never set to true afterwards. -/
def PandasPhenotypeDatabase.set_experiment_variables
    (fns : String → List PhenValue → List PhenValue) (mat : ℕ → ℕ → ℚ)
    (db : PandasPhenotypeDatabase) (vars : List Variable') :
    Except PhenError PandasPhenotypeDatabase :=
  let db := { db with variables' := some vars }
  match db.exclusions_were_initialized with
  | none => .ok db
  | some true => .error (.stateError
      "Can\x27t set the experiment variables after exclusions were initialized.")
  | some false =>
      let names := vars.map Variable'.name
      match vars.foldlM
          (processVar fns (db.exclusion_threshold.getD 0) mat vars names)
          (db.data, db.exclusion_mappings) with
      | .error e => .error e
      | .ok (df, ms) =>
          .ok { db with data := df, exclusion_mappings := ms }

end Phen

open Phen in
/-- Helper for C5: a requested sequence containing a sample unknown to the
source never validates. -/
theorem validate_fails_extra (old new : List String) (allow_subset : Bool)
    (h : ∃ s ∈ new, s ∉ old) :
    ∃ e, validate_sample_sequences old new allow_subset = .error e := by
  obtain ⟨s, hs, hout⟩ := h
  have hextra : ¬ (new.filter (fun x => ¬ old.contains x)).isEmpty = true := by
    rw [List.isEmpty_iff, List.filter_eq_nil_iff]
    intro hnil
    exact (hnil s hs) (by simp [hout])
  unfold validate_sample_sequences
  dsimp only
  by_cases h1 : ¬ allow_subset = true ∧
      ¬ (old.filter (fun x => ¬ new.contains x)).isEmpty = true
  · exact ⟨_, by rw [if_pos h1]⟩
  · exact ⟨_, by rw [if_neg h1, if_pos hextra]⟩

open Phen in
/-- Helper for C5: without allow_subset, a sequence missing a source
sample never validates. -/
theorem validate_fails_missing (old new : List String)
    (h : ∃ s ∈ old, s ∉ new) :
    ∃ e, validate_sample_sequences old new false = .error e := by
  obtain ⟨s, hs, hout⟩ := h
  have hmissing :
      ¬ (old.filter (fun x => ¬ new.contains x)).isEmpty = true := by
    rw [List.isEmpty_iff, List.filter_eq_nil_iff]
    intro hnil
    exact (hnil s hs) (by simp [hout])
  refine ⟨.missingSamples
    "Can\x27t set the sequence because some entries are missing resulting in ambiguous order.",
    ?_⟩
  unfold validate_sample_sequences
  dsimp only
  rw [if_pos ⟨by simp, hmissing⟩]

open Phen in
/-- Helper for C5: a subset sequence validates under allow_subset. -/
theorem validate_ok (old new : List String)
    (h : ∀ s ∈ new, s ∈ old) :
    validate_sample_sequences old new true = .ok () := by
  have hextra : (new.filter (fun x => ¬ old.contains x)) = [] := by
    rw [List.filter_eq_nil_iff]
    intro s hs
    simp [h s hs]
  unfold validate_sample_sequences
  dsimp only
  rw [hextra]
  simp

open Phen in
/-- C5: set_sample_order fails whenever the requested sequence contains a
sample absent from the source; with allow_subset disabled it also fails
when a source sample is absent from the sequence; and with allow_subset
enabled on a subset sequence it succeeds and get_sample_order afterwards
returns exactly the requested sequence. -/
theorem set_sample_order_spec (db : PandasPhenotypeDatabase)
    (seq : List String) (allow_subset : Bool) :
    ((∃ s ∈ seq, s ∉ db.data.index) →
      ∃ e, db.set_sample_order seq allow_subset = .error e) ∧
    ((∃ s ∈ db.data.index, s ∉ seq) →
      ∃ e, db.set_sample_order seq false = .error e) ∧
    ((∀ s ∈ seq, s ∈ db.data.index) →
      db.set_sample_order seq true
        = .ok { db with data := db.data.reindex seq, order_is_set := true } ∧
      ∀ db', db.set_sample_order seq true = .ok db' →
        db'.get_sample_order = seq) := by
  refine ⟨?_, ?_, ?_⟩
  · intro h
    obtain ⟨e, he⟩ := validate_fails_extra db.get_sample_order seq
      allow_subset h
    exact ⟨e, by unfold PandasPhenotypeDatabase.set_sample_order; rw [he]⟩
  · intro h
    obtain ⟨e, he⟩ := validate_fails_missing db.get_sample_order seq h
    exact ⟨e, by unfold PandasPhenotypeDatabase.set_sample_order; rw [he]⟩
  · intro hsub
    have hok : db.set_sample_order seq true
        = .ok { db with data := db.data.reindex seq,
                        order_is_set := true } := by
      unfold PandasPhenotypeDatabase.set_sample_order
      rw [validate_ok db.get_sample_order seq hsub]
    refine ⟨hok, ?_⟩
    intro db' hdb'
    rw [hok] at hdb'
    cases hdb'
    rfl

open Phen in
/-- Concrete phenotype database for the C5 and C8 witnesses. -/
def w5db : PandasPhenotypeDatabase :=
  { data := { index := ["s1", "s2"],
              columns := [("a", [some 1, some 0])] } }

open Phen in
/-- Witness instantiating set_sample_order_spec at concrete inputs:
an unknown extra sample fails, a strict reorder missing a source sample
fails, and a subset reorder succeeds returning the requested order. -/
theorem set_sample_order_spec_witness :
    (∃ e, w5db.set_sample_order ["x"] true = .error e) ∧
    (∃ e, w5db.set_sample_order ["s2"] false = .error e) ∧
    (w5db.set_sample_order ["s2"] true
      = .ok { w5db with data := w5db.data.reindex ["s2"],
                        order_is_set := true } ∧
     ∀ db', w5db.set_sample_order ["s2"] true = .ok db' →
       db'.get_sample_order = ["s2"]) :=
  ⟨(set_sample_order_spec w5db ["x"] true).1
      ⟨"x", by simp, by simp [w5db]⟩,
   (set_sample_order_spec w5db ["s2"] false).2.1
      ⟨"s1", by simp [w5db], by simp⟩,
   (set_sample_order_spec w5db ["s2"] true).2.2
      (by intro s hs; simp [w5db] at hs ⊢; simp [hs])⟩

open Phen in
/-- C8 (code bug): requesting a phenotype vector for a variable whose
name is not a column of the source does not fail with the lookup error:
the call fails first with the AttributeError of the undefined is_variable
method, a different error kind raised before the lookup check ever
runs. -/
theorem get_phenotype_vector_attribute_error
    (fns : String → List PhenValue → List PhenValue)
    (db : PandasPhenotypeDatabase) (var : Variable')
    (h : var.name ∉ db.data.columns.map Prod.fst) :
    db.get_phenotype_vector fns var
      = .error (.attributeError isVariableAttrMsg) ∧
    db.get_phenotype_vector fns var
      ≠ .error (.lookupError
          ("\x27" ++ var.name ++ "\x27 is not in the database.")) := by
  refine ⟨rfl, ?_⟩
  intro hcontra
  rw [show db.get_phenotype_vector fns var
      = .error (.attributeError isVariableAttrMsg) from rfl] at hcontra
  exact PhenError.noConfusion (Except.error.inj hcontra)

open Phen in
/-- The unknown variable used by the C8 witness. -/
def w8var : Variable' :=
  { name := "zzz", variable_type := "discrete", is_covariate := false }

open Phen in
/-- Witness instantiating get_phenotype_vector_attribute_error at a
concrete database and unknown variable name. -/
theorem get_phenotype_vector_attribute_error_witness :
    w8var.name ∉ w5db.data.columns.map Prod.fst ∧
    (w5db.get_phenotype_vector (fun _ v => v) w8var
      = .error (.attributeError isVariableAttrMsg) ∧
     w5db.get_phenotype_vector (fun _ v => v) w8var
      ≠ .error (.lookupError
          ("\x27" ++ w8var.name ++ "\x27 is not in the database."))) :=
  ⟨by simp [w5db, w8var],
   get_phenotype_vector_attribute_error (fun _ v => v) w5db w8var
     (by simp [w5db, w8var])⟩

namespace Tasks

/-- Python equality between a string and a Variable instance: neither
class defines a cross-type __eq__, so CPython falls back to identity and
the comparison is always False. This drives the membership test
"i.name in self.outcomes" once outcomes holds Variable objects. -/
def pyStrEqVariable (s : String) (v : Phen.Variable') : Bool := false

/-- The value held by a task scope attribute (outcomes, covariates,
variants): the string "all", a configured list of names, or, after
run_task resolution, a list of Variable objects. -/
inductive Scope
  | all
  | names (ns : List String)
  | resolved (vs : List Phen.Variable')
  deriving Repr, DecidableEq

/-- The outcome branch of AbstractTask.run_task: "all" keeps the
non-covariates, otherwise the experiment variables whose name tests as a
member of the current outcomes value (Python "in"). -/
def resolveOutcomes (experimentVars : List Phen.Variable') :
    Scope → List Phen.Variable'
  | .all => experimentVars.filter (fun v => !v.is_covariate)
  | .names ns => experimentVars.filter (fun v => ns.contains v.name)
  | .resolved vs =>
      experimentVars.filter (fun v => vs.any (pyStrEqVariable v.name))

/-- The covariate branch of AbstractTask.run_task. -/
def resolveCovariates (experimentVars : List Phen.Variable') :
    Scope → List Phen.Variable'
  | .all => experimentVars.filter (fun v => v.is_covariate)
  | .names ns => experimentVars.filter (fun v => ns.contains v.name)
  | .resolved vs =>
      experimentVars.filter (fun v => vs.any (pyStrEqVariable v.name))

/-- Scope-relevant state of AbstractTask. -/
structure AbstractTask where
  outcomes : Scope := .all
  covariates : Scope := .all
  variants : Scope := .all
  deriving Repr, DecidableEq

/-- The scope-resolution step of AbstractTask.run_task: resolve outcomes
and covariates against the experiment variables, and reject any variants
value other than "all" (NotImplementedError). -/
def run_task_scope (t : AbstractTask)
    (experimentVars : List Phen.Variable') : Except String AbstractTask :=
  if t.variants ≠ Scope.all then .error "NotImplementedError"
  else .ok { t with
    outcomes := .resolved (resolveOutcomes experimentVars t.outcomes),
    covariates := .resolved (resolveCovariates experimentVars t.covariates) }

/-- np.isnan over a vector. -/
def isnan (v : List PhenValue) : List Bool := v.map Option.isNone

/-- Elementwise logical or of two boolean masks. -/
def orMask (a b : List Bool) : List Bool := List.zipWith or a b

/-- missing_covar of LogisticTest.run_task:
np.isnan(covar_matrix).any(axis=1). The intercept column is all ones, so
only the covariate columns can contribute; with no covariates the mask is
all False (~ones.astype(bool)). -/
def missingCovar (covars : List (List PhenValue)) (n : ℕ) : List Bool :=
  covars.foldl (fun acc c => orMask acc (isnan c)) (List.replicate n false)

/-- One job tuple pushed by LogisticTest.run_task:
(variant, phenotype, x-slice, y-slice, genetic column 0). -/
structure Job where
  variant : String
  phenotype : String
  x : List (List ℚ)
  y : List ℚ
  genetic_col : ℕ
  deriving Repr, DecidableEq

/-- y[~missing]: the outcome values at the rows not flagged missing. -/
def selectVec (v : List PhenValue) (missing : List Bool) : List ℚ :=
  (v.zip missing).filterMap
    (fun p => if p.2 then none else some (p.1.getD 0))

/-- x[~missing, :]: the design-matrix rows not flagged missing. -/
def selectRows (rows : List (List PhenValue)) (missing : List Bool) :
    List (List ℚ) :=
  (rows.zip missing).filterMap
    (fun p => if p.2 then none else some (p.1.map (fun v => v.getD 0)))

/-- The unfiltered design matrix rows of LogisticTest.run_task: for each
sample, the genotype, then the intercept, then the covariate values
(np.hstack((x, covar_matrix)) with the intercept first inside
covar_matrix). -/
def designRows (covars : List (List PhenValue)) (x : List PhenValue)
    (n : ℕ) : List (List PhenValue) :=
  (List.range n).map (fun s =>
    x.getD s none :: some 1 :: covars.map (fun c => c.getD s none))

/-- The job built for one (variant, phenotype) pair: the three missing
masks are combined with logical or, and both arrays are pre-filtered to
the complete cases (no imputation). -/
def buildJob (covars : List (List PhenValue)) (n : ℕ) (pname : String)
    (y : List PhenValue) (vname : String) (x : List PhenValue) : Job :=
  let missing := orMask (orMask (missingCovar covars n) (isnan x)) (isnan y)
  { variant := vname, phenotype := pname,
    x := selectRows (designRows covars x n) missing,
    y := selectVec y missing,
    genetic_col := 0 }

/-- The job list pushed by the nested outcome/variant loops of
LogisticTest.run_task. -/
def run_task_jobs (covars : List (List PhenValue))
    (phenos : List (String × List PhenValue))
    (variants : List (String × List PhenValue)) (n : ℕ) : List Job :=
  phenos.flatMap (fun p =>
    variants.map (fun v => buildJob covars n p.1 p.2 v.1 v.2))

/-- Counts of false and true entries partition a boolean list. -/
theorem count_false_add_count_true (l : List Bool) :
    l.count false + l.count true = l.length := by
  induction l with
  | nil => rfl
  | cons b t ih => cases b <;> simp [List.count_cons] <;> omega

/-- Or-ing with an all-false mask is the identity. -/
theorem orMask_replicate_false (m : List Bool) (n : ℕ) (h : m.length = n) :
    orMask (List.replicate n false) m = m := by
  subst h
  induction m with
  | nil => rfl
  | cons b t ih => simp [orMask, List.replicate_succ] at ih ⊢; exact ih

/-- A vector with no missing value has an all-false isnan mask. -/
theorem isnan_complete (c : List PhenValue)
    (h : ∀ v ∈ c, v.isSome = true) :
    isnan c = List.replicate c.length false := by
  rw [List.eq_replicate_iff]
  refine ⟨by simp [isnan], ?_⟩
  intro b hb
  simp only [isnan, List.mem_map] at hb
  obtain ⟨v, hv, rfl⟩ := hb
  obtain ⟨a, rfl⟩ := Option.isSome_iff_exists.mp (h v hv)
  rfl

/-- With complete covariate columns of uniform length, the covariate
missingness mask is all false. -/
theorem missingCovar_complete (covars : List (List PhenValue)) (n : ℕ)
    (hc : ∀ c ∈ covars, ∀ v ∈ c, v.isSome = true)
    (hl : ∀ c ∈ covars, c.length = n) :
    missingCovar covars n = List.replicate n false := by
  unfold missingCovar
  induction covars with
  | nil => rfl
  | cons c t ih =>
    simp only [List.foldl_cons]
    rw [isnan_complete c (hc c (by simp)), hl c (by simp),
      orMask_replicate_false (List.replicate n false) n (by simp)]
    exact ih (fun c hc' => hc c (List.mem_cons_of_mem _ hc'))
      (fun c hc' => hl c (List.mem_cons_of_mem _ hc'))

/-- Disjoint masks or-combine additively on their true counts. -/
theorem count_true_orMask_disjoint : ∀ (a b : List Bool),
    a.length = b.length →
    (∀ s, ¬ (a.get? s = some true ∧ b.get? s = some true)) →
    (orMask a b).count true = a.count true + b.count true
  | [], [], _, _ => rfl
  | [], _ :: _, h, _ => by simp at h
  | _ :: _, [], h, _ => by simp at h
  | x :: a, y :: b, h, hd => by
      have h' : a.length = b.length := by simpa using h
      have hd' : ∀ s, ¬ (a.get? s = some true ∧ b.get? s = some true) :=
        fun s => hd (s + 1)
      have hrec := count_true_orMask_disjoint a b h' hd'
      have hhead : ¬ (x = true ∧ y = true) := by simpa using hd 0
      cases x <;> cases y <;>
        simp_all [orMask, List.count_cons] <;> omega

/-- The length of an or-combined mask. -/
theorem orMask_length (a b : List Bool) :
    (orMask a b).length = min a.length b.length := by
  simp [orMask]

/-- Selecting the unmasked entries keeps one entry per false mask bit. -/
theorem selectVec_length : ∀ (v : List PhenValue) (missing : List Bool),
    v.length = missing.length →
    (selectVec v missing).length = missing.count false
  | [], [], _ => rfl
  | [], _ :: _, h => by simp at h
  | _ :: _, [], h => by simp at h
  | a :: v, m :: ms, h => by
      have h' : v.length = ms.length := by simpa using h
      have hrec := selectVec_length v ms h'
      cases m <;> simp_all [selectVec, List.count_cons]

/-- Selecting the unmasked rows keeps one row per false mask bit. -/
theorem selectRows_length : ∀ (rows : List (List PhenValue))
    (missing : List Bool), rows.length = missing.length →
    (selectRows rows missing).length = missing.count false
  | [], [], _ => rfl
  | [], _ :: _, h => by simp at h
  | _ :: _, [], h => by simp at h
  | a :: v, m :: ms, h => by
      have h' : v.length = ms.length := by simpa using h
      have hrec := selectRows_length v ms h'
      cases m <;> simp_all [selectRows, List.count_cons]

end Tasks

open Tasks in
/-- C6: for a (variant, phenotype) regression job of LogisticTest, the
rows passed to the fit are exactly the samples not flagged missing in the
covariates, the outcome or the genotype (masks or-combined, no
imputation); in particular with 2 missing genotype calls, 1 missing
phenotype value, complete covariates and no overlap, the job holds
exactly n - 3 rows. -/
theorem logistic_job_complete_cases
    (covars : List (List PhenValue)) (pname vname : String)
    (y x : List PhenValue) (n : ℕ)
    (hy : y.length = n) (hx : x.length = n)
    (hcov : ∀ c ∈ covars, ∀ v ∈ c, v.isSome = true)
    (hclen : ∀ c ∈ covars, c.length = n)
    (hxm : (isnan x).count true = 2)
    (hym : (isnan y).count true = 1)
    (hdisj : ∀ s, ¬ ((isnan x).get? s = some true ∧
      (isnan y).get? s = some true)) :
    run_task_jobs covars [(pname, y)] [(vname, x)] n
      = [buildJob covars n pname y vname x] ∧
    (buildJob covars n pname y vname x).y.length
      = (orMask (orMask (missingCovar covars n) (isnan x))
          (isnan y)).count false ∧
    (buildJob covars n pname y vname x).y.length = n - 3 ∧
    (buildJob covars n pname y vname x).x.length = n - 3 := by
  have hxlen : (isnan x).length = n := by simp [isnan, hx]
  have hylen : (isnan y).length = n := by simp [isnan, hy]
  have hmc : missingCovar covars n = List.replicate n false :=
    missingCovar_complete covars n hcov hclen
  have hmask1 : orMask (missingCovar covars n) (isnan x) = isnan x := by
    rw [hmc]
    exact orMask_replicate_false _ n hxlen
  have hcount : (orMask (orMask (missingCovar covars n) (isnan x))
      (isnan y)).count true = 3 := by
    rw [hmask1, count_true_orMask_disjoint (isnan x) (isnan y)
      (hxlen.trans hylen.symm) hdisj, hxm, hym]
  have hmlen : (orMask (orMask (missingCovar covars n) (isnan x))
      (isnan y)).length = n := by
    rw [hmask1, orMask_length, hxlen, hylen]
    omega
  have hfalse : (orMask (orMask (missingCovar covars n) (isnan x))
      (isnan y)).count false = n - 3 := by
    have := count_false_add_count_true
      (orMask (orMask (missingCovar covars n) (isnan x)) (isnan y))
    omega
  refine ⟨by simp [run_task_jobs], ?_, ?_, ?_⟩
  · simp only [buildJob]
    exact selectVec_length y _ (by rw [hy, hmlen])
  · simp only [buildJob]
    rw [selectVec_length y _ (by rw [hy, hmlen])]
    exact hfalse
  · simp only [buildJob]
    rw [selectRows_length (designRows covars x n) _
      (by simp [designRows, hmlen])]
    exact hfalse

/-- Concrete inputs for the C6 witness: five samples, one complete
covariate, two missing genotype calls, one missing phenotype value, no
overlap. -/
def w6x : List PhenValue := [some 2, none, some 1, none, some 0]

/-- The outcome vector of the C6 witness. -/
def w6y : List PhenValue := [some 1, some 0, none, some 1, some 0]

/-- The covariate vector of the C6 witness. -/
def w6c : List PhenValue := [some 3, some 4, some 5, some 6, some 7]

/-- Witness instantiating logistic_job_complete_cases: the job for the
pair is built on exactly 5 - 3 = 2 rows. -/
theorem logistic_job_complete_cases_witness :
    Tasks.run_task_jobs [w6c] [("p", w6y)] [("v", w6x)] 5
      = [Tasks.buildJob [w6c] 5 "p" w6y "v" w6x] ∧
    (Tasks.buildJob [w6c] 5 "p" w6y "v" w6x).y.length
      = (Tasks.orMask (Tasks.orMask (Tasks.missingCovar [w6c] 5)
          (Tasks.isnan w6x)) (Tasks.isnan w6y)).count false ∧
    (Tasks.buildJob [w6c] 5 "p" w6y "v" w6x).y.length = 5 - 3 ∧
    (Tasks.buildJob [w6c] 5 "p" w6y "v" w6x).x.length = 5 - 3 :=
  logistic_job_complete_cases [w6c] "p" "v" w6y w6x 5
    (by simp [w6y]) (by simp [w6x])
    (by intro c hc v hv; simp [w6c] at hc; subst hc; simp [w6c] at hv;
        rcases hv with h | h | h | h | h <;> simp [h])
    (by intro c hc; simp [w6c] at hc; subst hc; simp [w6c])
    (by simp [Tasks.isnan, w6x, List.count_cons])
    (by simp [Tasks.isnan, w6y, List.count_cons])
    (by
      intro s
      simp only [Tasks.isnan, w6x, w6y, List.map_cons, List.map_nil]
      match s with
      | 0 => simp
      | 1 => simp
      | 2 => simp
      | 3 => simp
      | 4 => simp
      | (k + 5) => simp [List.get?_eq_none]
      )

/-- The single non-covariate discrete variable of the C9 scenario. -/
def c9var : Phen.Variable' :=
  { name := "a", variable_type := "discrete", is_covariate := false }

/-- A freshly configured task (outcomes "all", covariates "all",
variants "all"). -/
def c9task : Tasks.AbstractTask := { }

/-- The task after its first scope resolution against [c9var]. -/
def c9task1 : Tasks.AbstractTask :=
  { outcomes := .resolved [c9var], covariates := .resolved [],
    variants := .all }

/-- The task after a second scope resolution: both lists emptied. -/
def c9task2 : Tasks.AbstractTask :=
  { outcomes := .resolved [], covariates := .resolved [],
    variants := .all }

open Tasks in
/-- C9 counterexample: task scope resolution is not idempotent. On a task
configured with outcomes "all" over one non-covariate variable, the first
resolution yields that variable; resolving again yields the empty list
(the Python membership test name-in-list-of-Variable-objects is always
false), so the resolved outcome list changes. -/
theorem run_task_scope_not_idempotent :
    run_task_scope c9task [c9var] = .ok c9task1 ∧
    run_task_scope c9task1 [c9var] = .ok c9task2 ∧
    c9task1.outcomes ≠ c9task2.outcomes := by
  refine ⟨?_, ?_, ?_⟩
  · simp [run_task_scope, resolveOutcomes, resolveCovariates, c9task,
      c9task1, c9var]
  · simp [run_task_scope, resolveOutcomes, resolveCovariates,
      pyStrEqVariable, c9task1, c9task2]
  · simp [c9task1, c9task2]

open Tasks in
/-- The Python membership test of a name against a list of Variable
objects is false for every list. -/
theorem any_pyStrEqVariable (s : String) (vs : List Phen.Variable') :
    vs.any (pyStrEqVariable s) = false := by
  induction vs with
  | nil => rfl
  | cons v t ih => simp [pyStrEqVariable, ih]

open Tasks in
/-- C9 (amended): a second scope resolution on an already-scoped task does
not preserve the resolved lists; it always replaces both by the empty
list, because a variable name never tests equal (Python ==) to a resolved
Variable object. It is therefore idempotent only when the first resolution
produced empty lists. -/
theorem run_task_scope_second_resolution_empty
    (t t1 : AbstractTask) (vars1 vars2 : List Phen.Variable')
    (h : run_task_scope t vars1 = .ok t1) :
    run_task_scope t1 vars2
      = .ok { t1 with outcomes := .resolved [],
                      covariates := .resolved [] } := by
  unfold run_task_scope at h ⊢
  split_ifs at h with hv
  cases h
  rw [ne_eq, not_not] at hv
  simp [hv, resolveOutcomes, resolveCovariates, any_pyStrEqVariable]

open Tasks in
/-- Witness instantiating run_task_scope_second_resolution_empty at the
concrete task of the counterexample. -/
theorem run_task_scope_second_resolution_empty_witness :
    run_task_scope c9task1 [c9var]
      = .ok { c9task1 with outcomes := .resolved [],
                           covariates := .resolved [] } :=
  run_task_scope_second_resolution_empty c9task c9task1 [c9var] [c9var]
    (by simp [run_task_scope, resolveOutcomes, resolveCovariates, c9task,
      c9task1, c9var])

namespace Utils

/-- SingleCoreWorkQueue (forward/utils.py): the target function and the
result buffer. Job and result types are abstract. -/
structure SingleCoreWorkQueue (α β : Type) where
  f : α → β
  results : List β := []

/-- SingleCoreWorkQueue.push_work: run the job synchronously and append
its result to the buffer (self.results.append(self.f(*tu))). -/
def SingleCoreWorkQueue.push_work {α β : Type}
    (q : SingleCoreWorkQueue α β) (tu : α) : SingleCoreWorkQueue α β :=
  { q with results := q.results ++ [q.f tu] }

/-- SingleCoreWorkQueue.get_result: when the buffer is nonempty, pop and
return its last element; otherwise fall through and return None. -/
def SingleCoreWorkQueue.get_result {α β : Type}
    (q : SingleCoreWorkQueue α β) :
    Option β × SingleCoreWorkQueue α β :=
  if q.results.isEmpty then (none, q)
  else (q.results.getLast?, { q with results := q.results.dropLast })

/-- SingleCoreWorkQueue.done_pushing is a no-op (pass). -/
def SingleCoreWorkQueue.done_pushing {α β : Type}
    (q : SingleCoreWorkQueue α β) : SingleCoreWorkQueue α β := q

/-- Pushing a list of jobs in order. -/
def pushAll {α β : Type} (q : SingleCoreWorkQueue α β) (jobs : List α) :
    SingleCoreWorkQueue α β :=
  jobs.foldl SingleCoreWorkQueue.push_work q

/-- Repeatedly calling get_result, collecting results until it returns
none; the fuel starts at the buffer length, which bounds the number of
available results. -/
def drainAux {α β : Type} : ℕ → SingleCoreWorkQueue α β → List β
  | 0, _ => []
  | n + 1, q =>
      match q.get_result with
      | (none, _) => []
      | (some r, q') => r :: drainAux n q'

/-- Draining the queue to exhaustion. -/
def drain {α β : Type} (q : SingleCoreWorkQueue α β) : List β :=
  drainAux q.results.length q

/-- Pushing preserves the function and appends the mapped results. -/
theorem pushAll_results {α β : Type} (q : SingleCoreWorkQueue α β)
    (jobs : List α) :
    pushAll q jobs = { q with results := q.results ++ jobs.map q.f } := by
  induction jobs generalizing q with
  | nil => simp [pushAll]
  | cons j t ih =>
      simp [pushAll, SingleCoreWorkQueue.push_work] at ih ⊢
      rw [ih]
      simp

/-- Popping from a nonempty buffer returns the last element and drops
it. -/
theorem get_result_concat {α β : Type} (f : α → β) (rs : List β) (b : β) :
    SingleCoreWorkQueue.get_result { f := f, results := rs ++ [b] }
      = (some b, { f := f, results := rs }) := by
  simp [SingleCoreWorkQueue.get_result]

/-- Draining returns the buffered results last-in first-out. -/
theorem drain_eq_reverse {α β : Type} (f : α → β) (rs : List β) :
    drain { f := f, results := rs } = rs.reverse := by
  unfold drain
  induction rs using List.reverseRecOn with
  | nil => rfl
  | append_singleton rs b ih =>
      have hl : (rs ++ [b]).length = rs.length + 1 := by simp
      simp only [hl]
      rw [drainAux, get_result_concat]
      dsimp only
      rw [ih]
      simp

end Utils

open Utils in
/-- C10: in the single-worker queue each pushed job is executed
synchronously during push_work and its result buffered; get_result pops
the buffered results in reverse push order, and on an empty buffer
returns none immediately; hence draining after the k pushes yields
exactly the k job results (reversed). -/
theorem single_core_queue_spec {α β : Type} (f : α → β) (jobs : List α) :
    (pushAll { f := f, results := [] } jobs).results = jobs.map f ∧
    drain (pushAll { f := f, results := [] } jobs)
      = (jobs.map f).reverse ∧
    (drain (pushAll { f := f, results := [] } jobs)).length
      = jobs.length ∧
    SingleCoreWorkQueue.get_result { f := f, results := [] }
      = (none, { f := f, results := [] }) := by
  have hpush := pushAll_results { f := f, results := [] } jobs
  simp only [List.nil_append] at hpush
  have hdrain : drain (pushAll { f := f, results := [] } jobs)
      = (jobs.map f).reverse := by
    rw [hpush]
    exact drain_eq_reverse f (jobs.map f)
  refine ⟨by rw [hpush], hdrain, by rw [hdrain]; simp, ?_⟩
  simp [SingleCoreWorkQueue.get_result]

/-- First variable of the exclusion scenario. -/
def c7varA : Phen.Variable' :=
  { name := "a", variable_type := "discrete", is_covariate := false }

/-- Second variable of the exclusion scenario. -/
def c7varB : Phen.Variable' :=
  { name := "b", variable_type := "discrete", is_covariate := false }

/-- The experiment variable list of the exclusion scenario. -/
def c7vars : List Phen.Variable' := [c7varA, c7varB]

/-- Three samples; a and b are perfectly anticorrelated cases/controls
except for the shared control s3. -/
def c7df : Phen.DataFrame :=
  { index := ["s1", "s2", "s3"],
    columns := [("a", [some 0, some 1, some 0]),
                ("b", [some 1, some 0, some 0])] }

/-- The database after the user requested exclude_correlated(1). -/
def c7db : Phen.PandasPhenotypeDatabase :=
  Phen.PandasPhenotypeDatabase.exclude_correlated { data := c7df } 1

/-- Transformation functions are irrelevant for discrete variables. -/
def c7fns : String → List PhenValue → List PhenValue := fun _ v => v

/-- A correlation matrix with every entry 1. -/
def c7mat : ℕ → ℕ → ℚ := fun _ _ => 1

/-- The first triggering of the exclusion computation. -/
def c7run1 : Except Phen.PhenError Phen.PandasPhenotypeDatabase :=
  Phen.PandasPhenotypeDatabase.set_experiment_variables c7fns c7mat c7db
    c7vars

/-- The second triggering, on the state left by the first. -/
def c7run2 : Except Phen.PhenError Phen.PandasPhenotypeDatabase :=
  c7run1.bind (fun db2 =>
    Phen.PandasPhenotypeDatabase.set_experiment_variables c7fns c7mat db2
      c7vars)

open Phen in
/-- C7 (code bug): triggering the exclusion computation a second time
does not raise the state error. Already the first signal fails with the
AttributeError of the undefined is_variable method, raised from the first
vector fetch of the exclusion loop, and the second signal fails the same
way; the state-error guard (whose flag moreover is never set to true) is
not what rejects the retrigger. -/
theorem exclusions_retrigger_attribute_error :
    c7run1 = .error (.attributeError isVariableAttrMsg) ∧
    c7run2 = .error (.attributeError isVariableAttrMsg) ∧
    ∀ m, c7run2 ≠ .error (.stateError m) := by
  refine ⟨rfl, rfl, ?_⟩
  intro m hcontra
  rw [show c7run2 = .error (.attributeError isVariableAttrMsg)
      from rfl] at hcontra
  exact PhenError.noConfusion (Except.error.inj hcontra)



namespace Phen

/-- get_phenotype_vector_df fails at the is_variable guard on every
input. -/
theorem get_phenotype_vector_df_attr
    (fns : String → List PhenValue → List PhenValue) (df : DataFrame)
    (var : Variable') :
    get_phenotype_vector_df fns df var
      = .error (.attributeError isVariableAttrMsg) := rfl

/-- processVar fails with the attribute error on every discrete
non-covariate variable: the snapshot fetch crashes before the inner
loop starts. -/
theorem processVar_attr
    (fns : String → List PhenValue → List PhenValue) (t : ℚ)
    (mat : ℕ → ℕ → ℚ) (vars : List Variable') (names : List String)
    (acc : DataFrame × List ExclusionRecord) (var : Variable')
    (hd : var.variable_type = "discrete") (hc : var.is_covariate = false) :
    processVar fns t mat vars names acc var
      = .error (.attributeError isVariableAttrMsg) := by
  unfold processVar
  rw [if_neg (by simp [hd]), if_neg (by simp [hc]),
    get_phenotype_vector_df_attr]

/-- processVar leaves the accumulator unchanged on quantitative or
covariate variables. -/
theorem processVar_skip
    (fns : String → List PhenValue → List PhenValue) (t : ℚ)
    (mat : ℕ → ℕ → ℚ) (vars : List Variable') (names : List String)
    (acc : DataFrame × List ExclusionRecord) (var : Variable')
    (h : ¬ (var.variable_type = "discrete" ∧ var.is_covariate = false)) :
    processVar fns t mat vars names acc var = .ok acc := by
  unfold processVar
  by_cases h1 : var.variable_type = "discrete"
  · have h2 : var.is_covariate = true := by
      rcases Bool.eq_false_or_eq_true var.is_covariate with hb | hb
      · exact hb
      · exact absurd ⟨h1, hb⟩ h
    rw [if_neg (by simp [h1]), if_pos h2]
  · rw [if_pos h1]

/-- The exclusion loop fails with the attribute error as soon as the
variable list holds a discrete non-covariate variable. -/
theorem exclusion_fold_attr
    (fns : String → List PhenValue → List PhenValue) (t : ℚ)
    (mat : ℕ → ℕ → ℚ) (vars : List Variable') (names : List String)
    (vs : List Variable') (acc : DataFrame × List ExclusionRecord)
    (h : ∃ v ∈ vs, v.variable_type = "discrete" ∧ v.is_covariate = false) :
    vs.foldlM (processVar fns t mat vars names) acc
      = .error (.attributeError isVariableAttrMsg) := by
  induction vs generalizing acc with
  | nil => simp at h
  | cons a as ih =>
      rw [List.foldlM_cons]
      by_cases ha : a.variable_type = "discrete" ∧ a.is_covariate = false
      · rw [processVar_attr fns t mat vars names acc a ha.1 ha.2]
        rfl
      · rw [processVar_skip fns t mat vars names acc a ha]
        obtain ⟨v, hv, hvd⟩ := h
        rcases List.mem_cons.mp hv with rfl | hmem
        · exact absurd hvd ha
        · exact ih acc ⟨v, hmem, hvd⟩

end Phen

open Phen in
/-- C2 (code bug): after exclude_correlated has requested exclusions,
signalling the experiment variables with a list holding any discrete
non-covariate variable fails with the AttributeError of the undefined
is_variable method, raised from the first vector fetch of the exclusion
loop; the database is never returned, so no sample value is nulled and no
exclusion record is stored. -/
theorem set_experiment_variables_attribute_error
    (fns : String → List PhenValue → List PhenValue) (mat : ℕ → ℕ → ℚ)
    (db : PandasPhenotypeDatabase) (vs : List Variable')
    (hflag : db.exclusions_were_initialized = some false)
    (h : ∃ v ∈ vs, v.variable_type = "discrete" ∧ v.is_covariate = false) :
    db.set_experiment_variables fns mat vs
      = .error (.attributeError isVariableAttrMsg) := by
  unfold PandasPhenotypeDatabase.set_experiment_variables
  dsimp only
  rw [hflag]
  dsimp only
  rw [exclusion_fold_attr fns (db.exclusion_threshold.getD 0) mat vs
    (vs.map Variable'.name) vs (db.data, db.exclusion_mappings) h]

/-- First variable of the C2 exclusion scenario. -/
def c2varA : Phen.Variable' :=
  { name := "a", variable_type := "discrete", is_covariate := false }

/-- Second variable of the C2 exclusion scenario. -/
def c2varB : Phen.Variable' :=
  { name := "b", variable_type := "discrete", is_covariate := false }

/-- The fixed experiment variable list of the C2 scenario. -/
def c2vars : List Phen.Variable' := [c2varA, c2varB]

/-- Three samples; s1 is a control for a and a case for b. -/
def c2df : Phen.DataFrame :=
  { index := ["s1", "s2", "s3"],
    columns := [("a", [some 0, some 1, some 0]),
                ("b", [some 1, some 0, some 0])] }

/-- The C2 database after the user requested exclude_correlated(1). -/
def c2db : Phen.PandasPhenotypeDatabase :=
  Phen.PandasPhenotypeDatabase.exclude_correlated { data := c2df } 1

/-- Transformation functions are irrelevant for discrete variables. -/
def c2fns : String → List PhenValue → List PhenValue := fun _ v => v

/-- A correlation matrix with every entry 1. -/
def c2mat : ℕ → ℕ → ℚ := fun _ _ => 1



open Phen in
/-- Witness for C2: on the concrete three-sample scenario with discrete
variables a and b and exclusions requested at threshold 1, the signal
fails with the attribute error. -/
theorem set_experiment_variables_attribute_error_witness :
    c2db.exclusions_were_initialized = some false ∧
    (∃ v ∈ c2vars,
      v.variable_type = "discrete" ∧ v.is_covariate = false) ∧
    Phen.PandasPhenotypeDatabase.set_experiment_variables c2fns c2mat c2db
      c2vars = .error (.attributeError isVariableAttrMsg) :=
  ⟨rfl, ⟨c2varA, by simp [c2vars], rfl, rfl⟩,
   set_experiment_variables_attribute_error c2fns c2mat c2db c2vars rfl
     ⟨c2varA, by simp [c2vars], rfl, rfl⟩⟩

end Forward
